import Mathlib

/-!
Verification of the core algorithms of a JIRA-facade service:
the token-bucket rate limiter (`src/utils/rate_limit.py`), the
search-result field projector and the clone-merge engine
(`src/core/client.py`), and the clone-argument key validator
(`src/models/issue.py`), shallowly embedded in Lean.
-/

namespace JiraFacade

/-! ## Token-bucket rate limiter (src/utils/rate_limit.py)

Times and token counts are embedded as rationals; the wall-clock reading
`now` is passed explicitly to each operation (Python reads it via
`datetime.now()`). -/

structure RateLimiter where
  calls : ℚ
  period : ℚ
  tokens : ℚ
  last_check : ℚ
deriving Repr, DecidableEq

/-- `RateLimiter.__init__(calls, period)` at wall-clock time `now`. -/
def RateLimiter.init (calls period : ℚ) (now : ℚ) : RateLimiter :=
  { calls := calls, period := period, tokens := calls, last_check := now }

/-- `RateLimiter._add_tokens`: refill the bucket from the elapsed time. -/
def RateLimiter.add_tokens (rl : RateLimiter) (now : ℚ) : RateLimiter :=
  { rl with
    tokens := min rl.calls (rl.tokens + (now - rl.last_check) * (rl.calls / rl.period)),
    last_check := now }

/-- `RateLimiter.acquire`: refill, then either consume one token and
return a zero wait, or leave tokens alone and return the wait time. -/
def RateLimiter.acquire (rl : RateLimiter) (now : ℚ) : RateLimiter × ℚ :=
  let rl2 := rl.add_tokens now
  if 1 ≤ rl2.tokens then
    ({ rl2 with tokens := rl2.tokens - 1 }, 0)
  else
    (rl2, rl.period / rl.calls * (1 - rl2.tokens))

/-- One run of the `rate_limited` decorator's wrapper: a single
`acquire`, a sleep for the returned wait when it is positive (sleeping
does not touch the limiter), then exactly one invocation of the wrapped
function. -/
structure WrapperRun where
  limiter : RateLimiter
  slept : ℚ
  wrappedCalls : ℕ
deriving Repr, DecidableEq

/-- `rate_limited(...)` wrapper body (src/utils/rate_limit.py lines 63-68). -/
def rateLimitedRun (rl : RateLimiter) (now : ℚ) : WrapperRun :=
  let p := rl.acquire now
  { limiter := p.1
    slept := if 0 < p.2 then p.2 else 0
    wrappedCalls := 1 }

/-! ## Remote record values

Python values flowing through the projector and the clone-merge engine:
`None`, booleans, strings, integers, lists, and attribute-bearing
objects (an object is its attribute table). -/

inductive PyVal where
  | vnull
  | vbool (b : Bool)
  | vstr (s : String)
  | vint (n : ℤ)
  | vlist (xs : List PyVal)
  | vobj (attrs : List (String × PyVal))
deriving Repr

/-- Python truthiness for the values above. -/
def PyVal.truthy : PyVal → Bool
  | .vnull => false
  | .vbool b => b
  | .vstr s => !s.isEmpty
  | .vint n => n != 0
  | .vlist xs => !xs.isEmpty
  | .vobj _ => true

/-- `value is None`. -/
def PyVal.isNull : PyVal → Bool
  | .vnull => true
  | _ => false

/-- Python's `s.startswith(p)` (list-of-characters form). -/
def startswith (s p : String) : Bool :=
  s.data.take p.data.length == p.data

/-- Python's `s.upper()` (list-of-characters form). -/
def upper (s : String) : String :=
  ⟨s.data.map Char.toUpper⟩

/-- `getattr(v, a)` / `hasattr(v, a)`: `some` the attribute's value when
`v` is an object carrying attribute `a`, `none` otherwise
(an `AttributeError` in Python). -/
def getattrOpt (v : PyVal) (a : String) : Option PyVal :=
  match v with
  | .vobj attrs => List.lookup a attrs
  | _ => none

/-! ## Search-result field projection (JiraClient.search_issues,
src/core/client.py lines 131-152)

A raw issue is its `key` plus the attribute table of `issue.fields`.
The Python loop builds a dict starting from `{"key": issue.key}`; dict
assignment is embedded as `dictInsert` (replace in place when the key
exists, append otherwise). -/

/-- Python `d[k] = v` on an association-list dict (keys are unique in a
Python dict): replace the entry in place when the key exists, append
otherwise. -/
def dictInsert : List (String × PyVal) → String → PyVal → List (String × PyVal)
  | [], k, v => [(k, v)]
  | p :: d, k, v => if p.1 = k then (k, v) :: d else p :: dictInsert d k v

/-- Python `d.update(kvs)`. -/
def dictUpdate (d : List (String × PyVal)) (kvs : List (String × PyVal)) :
    List (String × PyVal) :=
  kvs.foldl (fun acc p => dictInsert acc p.1 p.2) d

/-- `value.displayName if value else None` (resp. `.name`): when the
value is truthy, read the display attribute — a missing attribute raises
`AttributeError`, which the surrounding handler turns into `None`;
a falsy value projects to `None` directly. -/
def reduceVia (value : PyVal) (attr : String) : PyVal :=
  if value.truthy then
    match getattrOpt value attr with
    | some x => x
    | none => PyVal.vnull
  else PyVal.vnull

/-- Body of the per-field `try` block: fetch the attribute (absence →
`None` via the `except AttributeError` arm), then reduce the four
specially-handled field names. -/
def projectField (fieldsAttrs : List (String × PyVal)) (field : String) : PyVal :=
  match List.lookup field fieldsAttrs with
  | none => PyVal.vnull
  | some value =>
    if field = "assignee" then reduceVia value "displayName"
    else if field = "status" then reduceVia value "name"
    else if field = "issuetype" then reduceVia value "name"
    else if field = "priority" then reduceVia value "name"
    else value

/-- The projection loop of `search_issues`: start from
`{"key": issue.key}`, then assign each requested field other than
`"key"`. -/
def searchProject (key : String) (fieldsAttrs : List (String × PyVal))
    (fields : List String) : List (String × PyVal) :=
  (fields.filter (fun f => f != "key")).foldl
    (fun d f => dictInsert d f (projectField fieldsAttrs f))
    [("key", PyVal.vstr key)]

/-! ## Clone-merge engine (JiraClient.clone_issue, src/core/client.py
lines 452-602)

`CloneIssueArgs` mirrors the pydantic model (src/models/issue.py).
A source issue exposes its key, its project key, and the attribute
table of `source_issue.fields`; the attributes the code reads without a
`hasattr` guard (`summary`, `issuetype.name`, `description`) are carried
as dedicated fields. -/

structure CloneIssueArgs where
  source_issue_key : String
  project_key : Option String := none
  summary : Option String := none
  description : Option String := none
  issue_type : Option String := none
  priority : Option String := none
  assignee : Option String := none
  labels : Option (List String) := none
  custom_fields : List (String × PyVal) := []
  copy_attachments : Bool := false
  add_link_to_source : Bool := true
deriving Repr

structure SourceIssue where
  key : String
  projectKey : String
  summary : String
  issuetypeName : String
  description : PyVal
  attrs : List (String × PyVal)
deriving Repr

/-- Python's `x or default` on an optional string (`None` and the empty
string are falsy). -/
def pyOrStr (x : Option String) (default : String) : String :=
  match x with
  | some s => if s.isEmpty then default else s
  | none => default

/-- Lines 476-479: `description` is taken from the explicit argument
when not `None`, else copied from the source — in both cases the key is
assigned. -/
def resolveDescription (args : CloneIssueArgs) (src : SourceIssue) : PyVal :=
  match args.description with
  | some s => PyVal.vstr s
  | none => src.description

/-- Lines 481-485: the `priority` entry, when one is assigned. Reading
`.name` off a truthy source priority lacking that attribute raises
(caught only by the outer handler), hence the `Except`. -/
def resolvePriority (args : CloneIssueArgs) (src : SourceIssue) :
    Except String (Option PyVal) :=
  match args.priority with
  | some p => Except.ok (some (PyVal.vobj [("name", PyVal.vstr p)]))
  | none =>
    match List.lookup "priority" src.attrs with
    | some v =>
      if v.truthy then
        match getattrOpt v "name" with
        | some n => Except.ok (some (PyVal.vobj [("name", n)]))
        | none => Except.error "AttributeError: priority.name"
      else Except.ok none
    | none => Except.ok none

/-- Lines 487-497: the `assignee` entry, when one is assigned; the
source value is probed for `accountId`, then `key`, then `name`, and
omitted when none of the three is present. -/
def resolveAssignee (args : CloneIssueArgs) (src : SourceIssue) : Option PyVal :=
  match args.assignee with
  | some a => some (PyVal.vobj [("name", PyVal.vstr a)])
  | none =>
    match List.lookup "assignee" src.attrs with
    | some v =>
      if v.truthy then
        match getattrOpt v "accountId" with
        | some x => some (PyVal.vobj [("accountId", x)])
        | none =>
          match getattrOpt v "key" with
          | some x => some (PyVal.vobj [("key", x)])
          | none =>
            match getattrOpt v "name" with
            | some x => some (PyVal.vobj [("name", x)])
            | none => none
      else none
    | none => none

/-- Lines 499-503: the `labels` entry, when one is assigned
(an explicit argument wins even when it is the empty list; a falsy
source value — absent, `None` or `[]` — assigns nothing). -/
def resolveLabels (args : CloneIssueArgs) (src : SourceIssue) : Option PyVal :=
  match args.labels with
  | some l => some (PyVal.vlist (l.map PyVal.vstr))
  | none =>
    match List.lookup "labels" src.attrs with
    | some v => if v.truthy then some v else none
    | none => none

/-- Lines 514-522: normalize one custom-field value: probe `id`, then
`value`, then `name`, else keep the raw value. -/
def normalizeCustom (v : PyVal) : PyVal :=
  match getattrOpt v "id" with
  | some i => PyVal.vobj [("id", i)]
  | none =>
    match getattrOpt v "value" with
    | some w => PyVal.vobj [("value", w)]
    | none =>
      match getattrOpt v "name" with
      | some n => PyVal.vobj [("name", n)]
      | none => v

/-- Lines 506-522: the custom fields extracted from the source: every
attribute whose identifier starts with `customfield_` and whose value is
not `None`, normalized. (`dir()` yields each attribute name once.) -/
def sourceCustomFields (attrs : List (String × PyVal)) : List (String × PyVal) :=
  (attrs.filter (fun p => startswith p.1 "customfield_" && !p.2.isNull)).map
    (fun p => (p.1, normalizeCustom p.2))

/-- Lines 466-503: the dict of standard fields, assembled in source
order (`pr` is the already-computed outcome of the priority step). -/
def cloneMainDict (args : CloneIssueArgs) (src : SourceIssue) (pr : Option PyVal) :
    List (String × PyVal) :=
  let targetProject := pyOrStr args.project_key src.projectKey
  let d0 : List (String × PyVal) :=
    [("project", PyVal.vstr targetProject),
     ("summary", PyVal.vstr (pyOrStr args.summary ("Clone of " ++ src.summary))),
     ("issuetype", PyVal.vobj [("name", PyVal.vstr (pyOrStr args.issue_type src.issuetypeName))])]
  let d1 := d0 ++ [("description", resolveDescription args src)]
  let d2 := match pr with
    | some v => d1 ++ [("priority", v)]
    | none => d1
  let d3 := match resolveAssignee args src with
    | some v => d2 ++ [("assignee", v)]
    | none => d2
  match resolveLabels args src with
  | some v => d3 ++ [("labels", v)]
  | none => d3

/-- Lines 505-529: layer the source's custom fields, then the caller's
explicit custom fields, over the standard fields. -/
def assembleCloneFields (args : CloneIssueArgs) (src : SourceIssue) (pr : Option PyVal) :
    List (String × PyVal) :=
  dictUpdate (dictUpdate (cloneMainDict args src pr) (sourceCustomFields src.attrs))
    args.custom_fields

/-- Lines 466-529: the full field set handed to `create_issue`. -/
def buildCloneFields (args : CloneIssueArgs) (src : SourceIssue) :
    Except String (List (String × PyVal)) := do
  let pr ← resolvePriority args src
  return assembleCloneFields args src pr

/-- Whether a best-effort step's remote call succeeded. The `except`
arm (lines 561-562, 579-580) swallows a failure after logging it. -/
def tryStep (outcome : Except String Unit) : Bool :=
  match outcome with
  | Except.ok _ => true
  | Except.error _ => false

/-- Lines 583-598: the result dictionary returned after the new issue
exists (projected fields of the new issue elided to its key and
summary). `link_added` and `attachments_copied` report whether each step
was attempted, not whether it succeeded. -/
def cloneResultDict (args : CloneIssueArgs) (newIssue : SourceIssue)
    (src : SourceIssue) : List (String × PyVal) :=
  [("key", PyVal.vstr newIssue.key),
   ("summary", PyVal.vstr newIssue.summary),
   ("source_issue", PyVal.vobj [("key", PyVal.vstr src.key),
                                ("summary", PyVal.vstr src.summary)]),
   ("attachments_copied", PyVal.vbool args.copy_attachments),
   ("link_added", PyVal.vbool args.add_link_to_source)]

/-- Lines 549-598: what happens after `create_issue` returns: the link
and attachment steps are attempted inside their own `try`/`except`
(their outcomes only get logged), then the result dictionary is
returned. -/
def clonePostCreate (args : CloneIssueArgs) (newIssue : SourceIssue)
    (src : SourceIssue) (linkOutcome attachOutcome : Except String Unit) :
    Except String (List (String × PyVal)) :=
  let _linkOk := if args.add_link_to_source then tryStep linkOutcome else true
  let _attachOk := if args.copy_attachments then tryStep attachOutcome else true
  Except.ok (cloneResultDict args newIssue src)

/-! ## Clone-argument validation (CloneIssueArgs.validate_source_issue_key,
src/models/issue.py lines 70-74)

Python's `not v` on a string is emptiness, and `"-" in v` for the
one-character needle is membership of the hyphen character. -/

def validate_source_issue_key (v : String) : Except String String :=
  if v.isEmpty || !v.data.contains '-' then
    Except.error "Source issue key must be in format PROJECT-123"
  else
    Except.ok (upper v)

/-- The `CONTAINER-NUMBER` shape the specification describes: a
non-empty container identifier, one hyphen, and a non-empty numeric
suffix. (Spec-side definition, for comparison with the code's check.) -/
def specContainerNumberShape (s : String) : Bool :=
  let c := s.data.takeWhile (fun ch => ch != '-')
  match s.data.drop c.length with
  | '-' :: n => !c.isEmpty && !n.isEmpty && n.all Char.isDigit
  | _ => false

/-! ## Concrete example inputs -/

/-- The specification's clone-merge example source: summary "Fix bug",
priority "High", labels `["a"]`. -/
def cloneSourceExample : SourceIssue :=
  { key := "SRC-1", projectKey := "SRC", summary := "Fix bug",
    issuetypeName := "Task", description := PyVal.vnull,
    attrs := [("priority", PyVal.vobj [("name", PyVal.vstr "High")]),
              ("labels", PyVal.vlist [PyVal.vstr "a"])] }

/-- A clone request with no overrides. -/
def cloneArgsNoOverride : CloneIssueArgs :=
  { source_issue_key := "SRC-1" }

/-- A clone request overriding the summary and supplying an explicit
empty label list. -/
def cloneArgsWithOverride : CloneIssueArgs :=
  { source_issue_key := "SRC-1", summary := some "Custom title", labels := some [] }

/-- A source issue whose `description` is `None` and which carries no
other field attributes. -/
def emptySourceExample : SourceIssue :=
  { key := "S-1", projectKey := "S", summary := "x", issuetypeName := "Task",
    description := PyVal.vnull, attrs := [] }

/-- A record whose `reporter` is a structured sub-object exposing both a
display name and a name. -/
def reporterRecordExample : List (String × PyVal) :=
  [("reporter", PyVal.vobj [("displayName", PyVal.vstr "Alice"),
                            ("name", PyVal.vstr "alice.b")])]

/-- A source issue carrying one custom field whose value exposes both an
`id` and a `name` attribute. -/
def customFieldSourceExample : SourceIssue :=
  { key := "SRC-2", projectKey := "SRC", summary := "Fix bug",
    issuetypeName := "Task", description := PyVal.vnull,
    attrs := [("customfield_10010",
               PyVal.vobj [("id", PyVal.vstr "7"), ("name", PyVal.vstr "Sprint 7")])] }

/-- The field set produced by cloning `customFieldSourceExample` with no
overrides. -/
def customFieldMergedExample : List (String × PyVal) :=
  [("project", PyVal.vstr "SRC"),
   ("summary", PyVal.vstr "Clone of Fix bug"),
   ("issuetype", PyVal.vobj [("name", PyVal.vstr "Task")]),
   ("description", PyVal.vnull),
   ("customfield_10010", PyVal.vobj [("id", PyVal.vstr "7")])]

/-- The field set produced by cloning `cloneSourceExample` with the
override arguments. -/
def cloneMergedWithOverrideExample : List (String × PyVal) :=
  [("project", PyVal.vstr "SRC"),
   ("summary", PyVal.vstr "Custom title"),
   ("issuetype", PyVal.vobj [("name", PyVal.vstr "Task")]),
   ("description", PyVal.vnull),
   ("priority", PyVal.vobj [("name", PyVal.vstr "High")]),
   ("labels", PyVal.vlist [])]

/-! ## Theorems -/

/-- C1: for a rate limiter with positive `calls` and `period`, `acquire`
first refills the tokens to
`min calls (tokens + elapsed * (calls / period))` and updates
`last_check` to the current reading; then, if the refilled tokens are at
least 1, it removes exactly one token and returns a zero wait, and
otherwise leaves the refilled tokens and returns
`(period / calls) * (1 - tokens)`; it is a total function (never
fails). -/
theorem acquire_refills_then_decides (rl : RateLimiter) (now : ℚ)
    (hc : 0 < rl.calls) (hp : 0 < rl.period) :
    ((rl.acquire now).1.last_check = now ∧
      (rl.acquire now).1.calls = rl.calls ∧
      (rl.acquire now).1.period = rl.period) ∧
    (1 ≤ min rl.calls (rl.tokens + (now - rl.last_check) * (rl.calls / rl.period)) →
      (rl.acquire now).1.tokens
          = min rl.calls (rl.tokens + (now - rl.last_check) * (rl.calls / rl.period)) - 1 ∧
      (rl.acquire now).2 = 0) ∧
    (¬ 1 ≤ min rl.calls (rl.tokens + (now - rl.last_check) * (rl.calls / rl.period)) →
      (rl.acquire now).1.tokens
          = min rl.calls (rl.tokens + (now - rl.last_check) * (rl.calls / rl.period)) ∧
      (rl.acquire now).2 = rl.period / rl.calls
          * (1 - min rl.calls (rl.tokens + (now - rl.last_check) * (rl.calls / rl.period)))) := by
  simp only [RateLimiter.acquire, RateLimiter.add_tokens]
  split <;> simp_all

/-- Witness for C1: a limiter with 2 calls per 4 seconds, 2 tokens, at
elapsed time 1: the refilled total is capped at 2, one token is
consumed, and the wait is zero. -/
theorem acquire_refills_then_decides_witness :
    ((RateLimiter.mk 2 4 2 0).acquire 1).1.tokens
        = min (2:ℚ) (2 + (1 - 0) * (2 / 4)) - 1 ∧
    ((RateLimiter.mk 2 4 2 0).acquire 1).2 = 0 :=
  (acquire_refills_then_decides (RateLimiter.mk 2 4 2 0) 1
    (by norm_num) (by norm_num)).2.1 (by norm_num)

/-- C8: for positive `calls` and `period`, the invariant
`0 ≤ tokens ≤ calls` holds of a freshly constructed limiter and is
preserved by `acquire` whenever the wall clock has not gone backwards
since `last_check`. -/
theorem tokens_bounded_invariant :
    (∀ calls period now : ℚ, 0 < calls → 0 < period →
      0 ≤ (RateLimiter.init calls period now).tokens ∧
      (RateLimiter.init calls period now).tokens
          ≤ (RateLimiter.init calls period now).calls) ∧
    (∀ (rl : RateLimiter) (now : ℚ), 0 < rl.calls → 0 < rl.period →
      rl.last_check ≤ now → 0 ≤ rl.tokens → rl.tokens ≤ rl.calls →
      0 ≤ (rl.acquire now).1.tokens ∧
      (rl.acquire now).1.tokens ≤ (rl.acquire now).1.calls) := by
  constructor
  · intro calls period now hc _
    simp [RateLimiter.init, hc.le]
  · intro rl now hc hp hle htl htu
    have hmul : 0 ≤ (now - rl.last_check) * (rl.calls / rl.period) :=
      mul_nonneg (sub_nonneg.mpr hle) (div_nonneg hc.le hp.le)
    have h0t : 0 ≤ min rl.calls (rl.tokens + (now - rl.last_check) * (rl.calls / rl.period)) :=
      le_min hc.le (by linarith)
    have htc : min rl.calls (rl.tokens + (now - rl.last_check) * (rl.calls / rl.period))
        ≤ rl.calls := min_le_left _ _
    simp only [RateLimiter.acquire, RateLimiter.add_tokens]
    split <;> constructor <;> simp_all <;> linarith

/-- Witness for C8: both conjuncts applied at a limiter with 2 calls
per 4 seconds. -/
theorem tokens_bounded_invariant_witness :
    (0 ≤ (RateLimiter.init 2 4 0).tokens ∧
      (RateLimiter.init 2 4 0).tokens ≤ (RateLimiter.init 2 4 0).calls) ∧
    (0 ≤ ((RateLimiter.mk 2 4 2 0).acquire 1).1.tokens ∧
      ((RateLimiter.mk 2 4 2 0).acquire 1).1.tokens
          ≤ ((RateLimiter.mk 2 4 2 0).acquire 1).1.calls) :=
  ⟨tokens_bounded_invariant.1 2 4 0 (by norm_num) (by norm_num),
   tokens_bounded_invariant.2 (RateLimiter.mk 2 4 2 0) 1
     (by norm_num) (by norm_num) (by norm_num) (by norm_num) (by norm_num)⟩

/-- C10: when `acquire` returns a positive wait, the limiter state after
the call is exactly the refilled state — no token was deducted — and the
`rate_limited` wrapper sleeps for that wait and then performs the
wrapped call exactly once without acquiring again, so its final limiter
state is that same refilled state. -/
theorem throttled_call_never_decrements (rl : RateLimiter) (now : ℚ)
    (hw : 0 < (rl.acquire now).2) :
    (rl.acquire now).1 = rl.add_tokens now ∧
    (rl.acquire now).1.tokens = (rl.add_tokens now).tokens ∧
    (rateLimitedRun rl now).limiter = rl.add_tokens now ∧
    (rateLimitedRun rl now).slept = (rl.acquire now).2 ∧
    (rateLimitedRun rl now).wrappedCalls = 1 := by
  have h : ¬ 1 ≤ (rl.add_tokens now).tokens := by
    intro h
    simp [RateLimiter.acquire, h] at hw
  have h2 : rl.acquire now
      = (rl.add_tokens now, rl.period / rl.calls * (1 - (rl.add_tokens now).tokens)) := by
    simp [RateLimiter.acquire, h]
  refine ⟨by rw [h2], by rw [h2], ?_, ?_, rfl⟩
  · show (rl.acquire now).1 = rl.add_tokens now
    rw [h2]
  · show (if 0 < (rl.acquire now).2 then (rl.acquire now).2 else 0) = (rl.acquire now).2
    rw [if_pos hw]

/-- Witness for C10: an empty bucket with 1 call per 2 seconds returns a
positive wait, and no token is deducted. -/
theorem throttled_call_never_decrements_witness :
    ((RateLimiter.mk 1 2 0 0).acquire 0).1 = (RateLimiter.mk 1 2 0 0).add_tokens 0 ∧
    ((RateLimiter.mk 1 2 0 0).acquire 0).1.tokens
        = ((RateLimiter.mk 1 2 0 0).add_tokens 0).tokens ∧
    (rateLimitedRun (RateLimiter.mk 1 2 0 0) 0).limiter
        = (RateLimiter.mk 1 2 0 0).add_tokens 0 ∧
    (rateLimitedRun (RateLimiter.mk 1 2 0 0) 0).slept
        = ((RateLimiter.mk 1 2 0 0).acquire 0).2 ∧
    (rateLimitedRun (RateLimiter.mk 1 2 0 0) 0).wrappedCalls = 1 :=
  throttled_call_never_decrements (RateLimiter.mk 1 2 0 0) 0
    (by norm_num [RateLimiter.acquire, RateLimiter.add_tokens])

/-! ### Association-list dictionary lemmas -/

theorem lookup_cons_pv (f k : String) (v : PyVal) (d : List (String × PyVal)) :
    List.lookup f ((k, v) :: d) = if f = k then some v else List.lookup f d := by
  by_cases h : f = k
  · simp [List.lookup, h]
  · simp [List.lookup, beq_false_of_ne h, h]

theorem lookup_append_pv (f : String) (l1 l2 : List (String × PyVal)) :
    List.lookup f (l1 ++ l2)
      = match List.lookup f l1 with
        | some v => some v
        | none => List.lookup f l2 := by
  induction l1 with
  | nil => simp [List.lookup]
  | cons p l1 ih =>
    obtain ⟨k, v⟩ := p
    by_cases h : f = k
    · simp [lookup_cons_pv, h]
    · simp [lookup_cons_pv, h, ih]

theorem dictInsert_lookup (d : List (String × PyVal)) (k f : String) (v : PyVal) :
    List.lookup f (dictInsert d k v) = if f = k then some v else List.lookup f d := by
  induction d with
  | nil => rw [show dictInsert [] k v = [(k, v)] from rfl, lookup_cons_pv]
  | cons p d ih =>
    obtain ⟨k', w⟩ := p
    by_cases hk : k' = k
    · subst hk
      by_cases hf : f = k' <;> simp [dictInsert, lookup_cons_pv, hf]
    · by_cases hf : f = k'
      · subst hf
        simp [dictInsert, hk, lookup_cons_pv, Ne.symm hk]
      · simp [dictInsert, hk, lookup_cons_pv, hf, ih]

theorem dictInsert_fresh (d : List (String × PyVal)) (k : String) (v : PyVal)
    (h : ∀ p ∈ d, p.1 ≠ k) : dictInsert d k v = d ++ [(k, v)] := by
  induction d with
  | nil => rfl
  | cons p d ih =>
    rw [show dictInsert (p :: d) k v
        = if p.1 = k then (k, v) :: d else p :: dictInsert d k v from rfl]
    rw [if_neg (h p (List.mem_cons_self _ _))]
    rw [ih (fun q hq => h q (List.mem_cons_of_mem _ hq))]
    rfl

theorem dictUpdate_lookup_not_mem (d kvs : List (String × PyVal)) (f : String)
    (h : ∀ p ∈ kvs, p.1 ≠ f) :
    List.lookup f (dictUpdate d kvs) = List.lookup f d := by
  induction kvs generalizing d with
  | nil => rfl
  | cons p kvs ih =>
    have hp : p.1 ≠ f := h p (List.mem_cons_self _ _)
    rw [show dictUpdate d (p :: kvs) = dictUpdate (dictInsert d p.1 p.2) kvs from rfl]
    rw [ih _ (fun q hq => h q (List.mem_cons_of_mem _ hq))]
    rw [dictInsert_lookup, if_neg (Ne.symm hp)]

theorem dictUpdate_lookup_mem (d kvs : List (String × PyVal)) (f : String) (v : PyVal)
    (hnd : (kvs.map Prod.fst).Nodup) (hl : List.lookup f kvs = some v) :
    List.lookup f (dictUpdate d kvs) = some v := by
  induction kvs generalizing d with
  | nil => cases hl
  | cons p kvs ih =>
    obtain ⟨k, w⟩ := p
    simp only [List.map_cons, List.nodup_cons] at hnd
    obtain ⟨hk, hnd'⟩ := hnd
    rw [lookup_cons_pv] at hl
    rw [show dictUpdate d ((k, w) :: kvs) = dictUpdate (dictInsert d k w) kvs from rfl]
    by_cases hfk : f = k
    · rw [if_pos hfk] at hl
      subst hfk
      rw [dictUpdate_lookup_not_mem _ _ _
        (fun q hq hqf => hk (by rw [← hqf]; exact List.mem_map_of_mem Prod.fst hq))]
      rw [dictInsert_lookup, if_pos rfl]
      exact hl
    · rw [if_neg hfk] at hl
      exact ih _ hnd' hl

theorem foldl_dictInsert_fresh (g : String → PyVal) (fs : List String)
    (d : List (String × PyVal)) (hnd : fs.Nodup)
    (hfresh : ∀ f ∈ fs, ∀ p ∈ d, p.1 ≠ f) :
    fs.foldl (fun acc f => dictInsert acc f (g f)) d
      = d ++ fs.map (fun f => (f, g f)) := by
  induction fs generalizing d with
  | nil => simp
  | cons f fs ih =>
    simp only [List.nodup_cons] at hnd
    have h1 : dictInsert d f (g f) = d ++ [(f, g f)] :=
      dictInsert_fresh d f (g f) (hfresh f (List.mem_cons_self _ _))
    rw [List.foldl_cons, h1, ih (d ++ [(f, g f)]) hnd.2]
    · simp
    · intro f' hf' p hp
      rcases List.mem_append.mp hp with hpd | hpf
      · exact hfresh f' (List.mem_cons_of_mem _ hf') p hpd
      · simp only [List.mem_singleton] at hpf
        subst hpf
        intro hh
        apply hnd.1
        rw [show f = f' from hh]
        exact hf'

theorem lookup_map_pair_self (g : String → PyVal) (fs : List String) (f : String)
    (hf : f ∈ fs) : List.lookup f (fs.map (fun x => (x, g x))) = some (g f) := by
  induction fs with
  | nil => cases hf
  | cons a fs ih =>
    by_cases h : f = a
    · subst h
      simp [lookup_cons_pv]
    · rcases List.mem_cons.mp hf with h' | h'
      · exact absurd h' h
      · simp only [List.map_cons]
        rw [lookup_cons_pv, if_neg h]
        exact ih h'

/-! ### Clone-merge structural lemmas -/

theorem sourceCustomFields_keys (attrs : List (String × PyVal)) :
    ∀ p ∈ sourceCustomFields attrs, startswith p.1 "customfield_" = true := by
  intro p hp
  simp only [sourceCustomFields, List.mem_map, List.mem_filter] at hp
  obtain ⟨q, ⟨_, hcond⟩, hq⟩ := hp
  rw [Bool.and_eq_true] at hcond
  rw [← hq]
  exact hcond.1

theorem sourceCustomFields_keys_nodup (attrs : List (String × PyVal))
    (hnd : (attrs.map Prod.fst).Nodup) :
    ((sourceCustomFields attrs).map Prod.fst).Nodup := by
  have h : (sourceCustomFields attrs).map Prod.fst
      = (attrs.filter (fun p => startswith p.1 "customfield_" && !p.2.isNull)).map Prod.fst := by
    simp [sourceCustomFields, List.map_map]
  rw [h]
  exact hnd.sublist (List.Sublist.map Prod.fst (List.filter_sublist attrs))

theorem sourceCustomFields_lookup (attrs : List (String × PyVal)) (f : String) (v : PyVal)
    (hnd : (attrs.map Prod.fst).Nodup) (hl : List.lookup f attrs = some v)
    (hp : startswith f "customfield_" = true) (hv : v.isNull = false) :
    List.lookup f (sourceCustomFields attrs) = some (normalizeCustom v) := by
  induction attrs with
  | nil => cases hl
  | cons q attrs ih =>
    obtain ⟨k, w⟩ := q
    simp only [List.map_cons, List.nodup_cons] at hnd
    rw [lookup_cons_pv] at hl
    by_cases hfk : f = k
    · rw [if_pos hfk] at hl
      subst hfk
      injection hl with hl
      subst hl
      have hstep : sourceCustomFields ((f, w) :: attrs)
          = (f, normalizeCustom w) :: sourceCustomFields attrs := by
        simp [sourceCustomFields, List.filter_cons, hp, hv]
      rw [hstep, lookup_cons_pv]
      simp
    · rw [if_neg hfk] at hl
      have htail := ih hnd.2 hl
      cases hcond : (startswith k "customfield_" && !w.isNull) with
      | true =>
        simp only [sourceCustomFields, List.filter_cons, hcond, if_pos, List.map_cons]
        rw [lookup_cons_pv, if_neg hfk]
        exact htail
      | false =>
        simp only [sourceCustomFields, List.filter_cons, hcond]
        exact htail

theorem cloneMainDict_lookup_description (args : CloneIssueArgs) (src : SourceIssue)
    (pr : Option PyVal) :
    List.lookup "description" (cloneMainDict args src pr)
      = some (resolveDescription args src) := by
  cases hA : resolveAssignee args src <;> cases hL : resolveLabels args src <;>
    cases pr <;>
      simp [cloneMainDict, hA, hL, lookup_append_pv, lookup_cons_pv, List.lookup]

theorem cloneMainDict_lookup_priority (args : CloneIssueArgs) (src : SourceIssue)
    (pr : Option PyVal) :
    List.lookup "priority" (cloneMainDict args src pr) = pr := by
  cases hA : resolveAssignee args src <;> cases hL : resolveLabels args src <;>
    cases pr <;>
      simp [cloneMainDict, hA, hL, lookup_append_pv, lookup_cons_pv, List.lookup]

theorem cloneMainDict_lookup_assignee (args : CloneIssueArgs) (src : SourceIssue)
    (pr : Option PyVal) :
    List.lookup "assignee" (cloneMainDict args src pr) = resolveAssignee args src := by
  cases hA : resolveAssignee args src <;> cases hL : resolveLabels args src <;>
    cases pr <;>
      simp [cloneMainDict, hA, hL, lookup_append_pv, lookup_cons_pv, List.lookup]

theorem cloneMainDict_lookup_labels (args : CloneIssueArgs) (src : SourceIssue)
    (pr : Option PyVal) :
    List.lookup "labels" (cloneMainDict args src pr) = resolveLabels args src := by
  cases hA : resolveAssignee args src <;> cases hL : resolveLabels args src <;>
    cases pr <;>
      simp [cloneMainDict, hA, hL, lookup_append_pv, lookup_cons_pv, List.lookup]

theorem assemble_lookup_std (args : CloneIssueArgs) (src : SourceIssue)
    (pr : Option PyVal) (f : String)
    (hf : startswith f "customfield_" = false)
    (hcf : ∀ p ∈ args.custom_fields, p.1 ≠ f) :
    List.lookup f (assembleCloneFields args src pr)
      = List.lookup f (cloneMainDict args src pr) := by
  unfold assembleCloneFields
  rw [dictUpdate_lookup_not_mem _ _ _ hcf]
  rw [dictUpdate_lookup_not_mem]
  intro p hp hpf
  have hkey := sourceCustomFields_keys src.attrs p hp
  rw [hpf] at hkey
  rw [hkey] at hf
  cases hf

theorem buildCloneFields_ok (args : CloneIssueArgs) (src : SourceIssue)
    (d : List (String × PyVal)) (h : buildCloneFields args src = Except.ok d) :
    ∃ pr, resolvePriority args src = Except.ok pr
      ∧ d = assembleCloneFields args src pr := by
  unfold buildCloneFields at h
  cases hpr : resolvePriority args src with
  | error e =>
    rw [hpr] at h
    cases h
  | ok pr =>
    rw [hpr] at h
    refine ⟨pr, rfl, ?_⟩
    cases h
    rfl

/-- C2: cloning the example source (summary "Fix bug", priority "High",
labels `["a"]`) with no overrides yields summary "Clone of Fix bug",
priority "High" and labels `["a"]`; cloning it with summary
"Custom title" and an explicit empty label list yields summary
"Custom title" and labels `[]` — the empty list overrides the source's
labels. -/
theorem clone_merge_field_resolution_examples :
    (buildCloneFields cloneArgsNoOverride cloneSourceExample
        = Except.ok
          [("project", PyVal.vstr "SRC"),
           ("summary", PyVal.vstr "Clone of Fix bug"),
           ("issuetype", PyVal.vobj [("name", PyVal.vstr "Task")]),
           ("description", PyVal.vnull),
           ("priority", PyVal.vobj [("name", PyVal.vstr "High")]),
           ("labels", PyVal.vlist [PyVal.vstr "a"])]) ∧
    (buildCloneFields cloneArgsWithOverride cloneSourceExample
        = Except.ok
          [("project", PyVal.vstr "SRC"),
           ("summary", PyVal.vstr "Custom title"),
           ("issuetype", PyVal.vobj [("name", PyVal.vstr "Task")]),
           ("description", PyVal.vnull),
           ("priority", PyVal.vobj [("name", PyVal.vstr "High")]),
           ("labels", PyVal.vlist [])]) :=
  ⟨rfl, rfl⟩

/-- C9 counterexample: the key "A-B" contains a hyphen, so the validator
accepts it, yet it has no numeric suffix and is not of the
`CONTAINER-NUMBER` shape the claim requires every accepted key to
have. -/
theorem source_key_pattern_counterexample :
    validate_source_issue_key "A-B" = Except.ok "A-B" ∧
    specContainerNumberShape "A-B" = false :=
  ⟨rfl, rfl⟩

/-- C9 amended: validation of the clone source key only requires the key
to be non-empty and to contain a hyphen — any such key is accepted
(uppercased), and any other key is rejected with a validation error. -/
theorem source_key_validation_hyphen_check (v : String) :
    (v ≠ "" ∧ '-' ∈ v.data → validate_source_issue_key v = Except.ok (upper v)) ∧
    (v = "" ∨ '-' ∉ v.data →
      validate_source_issue_key v
        = Except.error "Source issue key must be in format PROJECT-123") := by
  constructor
  · rintro ⟨h1, h2⟩
    simp [validate_source_issue_key, String.isEmpty_iff, Bool.eq_false_iff, h1, h2]
  · intro h
    by_cases he : v = ""
    · simp [validate_source_issue_key, he]
    · have h2 : '-' ∉ v.data := by
        rcases h with h | h
        · exact absurd h he
        · exact h
      simp [validate_source_issue_key, String.isEmpty_iff, he, h2]

/-- Witness for the amended C9: "proj-1" is non-empty and contains a
hyphen, so it is accepted and uppercased. -/
theorem source_key_validation_hyphen_check_witness :
    validate_source_issue_key "proj-1" = Except.ok (upper "proj-1") :=
  (source_key_validation_hyphen_check "proj-1").1 ⟨by decide, by decide⟩

/-- C5 counterexample: a `reporter` field holding a structured
sub-object (with both a display name and a name) is passed through as
the raw object by the search projection, not reduced to its display
form. -/
theorem reporter_passthrough_counterexample :
    projectField reporterRecordExample "reporter"
        = PyVal.vobj [("displayName", PyVal.vstr "Alice"), ("name", PyVal.vstr "alice.b")] ∧
    projectField reporterRecordExample "reporter" ≠ PyVal.vstr "Alice" ∧
    projectField reporterRecordExample "reporter" ≠ PyVal.vstr "alice.b" := by
  refine ⟨rfl, ?_, ?_⟩ <;> intro h <;> exact PyVal.noConfusion h

/-- C5 amended: the search projection reduces the requested fields
`assignee` (via its display name), `status`, `issuetype` and `priority`
(via their names) to their display form when the raw value is a
structured sub-object, and projects null when the raw value is null;
`reporter` is not special-cased and passes through raw. The projection
is a total function (never raises). -/
theorem known_compound_fields_reduced (fa : List (String × PyVal)) (f : String)
    (v : PyVal)
    (hf : f = "assignee" ∨ f = "status" ∨ f = "issuetype" ∨ f = "priority")
    (hl : List.lookup f fa = some v) :
    (v = PyVal.vnull → projectField fa f = PyVal.vnull) ∧
    (∀ kvs, v = PyVal.vobj kvs →
      projectField fa f
        = (match getattrOpt v (if f = "assignee" then "displayName" else "name") with
           | some x => x
           | none => PyVal.vnull)) := by
  rcases hf with rfl | rfl | rfl | rfl <;>
    exact ⟨fun hv => by subst hv; simp [projectField, hl, reduceVia, PyVal.truthy],
           fun kvs hv => by subst hv; simp [projectField, hl, reduceVia, PyVal.truthy]⟩

/-- Witness for the amended C5: a null `status` projects to null; a
structured `status` projects to its name. -/
theorem known_compound_fields_reduced_witness :
    projectField [("status", PyVal.vnull)] "status" = PyVal.vnull ∧
    projectField [("status", PyVal.vobj [("name", PyVal.vstr "Open")])] "status"
        = PyVal.vstr "Open" := by
  constructor
  · exact (known_compound_fields_reduced [("status", PyVal.vnull)] "status" PyVal.vnull
      (Or.inr (Or.inl rfl)) rfl).1 rfl
  · have h := (known_compound_fields_reduced
      [("status", PyVal.vobj [("name", PyVal.vstr "Open")])] "status"
      (PyVal.vobj [("name", PyVal.vstr "Open")])
      (Or.inr (Or.inl rfl)) rfl).2 [("name", PyVal.vstr "Open")] rfl
    exact h.trans rfl

/-- C6: for a duplicate-free requested field list, the projection output
starts with the record's `key` whether or not `key` was requested, the
remaining entries follow the requested order, and a requested field the
record does not carry is projected as null rather than erroring. -/
theorem projector_unknown_null_key_first (k : String) (fa : List (String × PyVal))
    (fields : List String) (hnd : fields.Nodup) :
    (searchProject k fa fields).head? = some ("key", PyVal.vstr k) ∧
    (searchProject k fa fields).map Prod.fst
        = "key" :: fields.filter (fun f => f != "key") ∧
    (∀ f ∈ fields, f ≠ "key" → List.lookup f fa = none →
      List.lookup f (searchProject k fa fields) = some PyVal.vnull) := by
  have hnd' : (fields.filter (fun f => f != "key")).Nodup := hnd.filter _
  have hfresh : ∀ f ∈ fields.filter (fun f => f != "key"),
      ∀ p ∈ [(("key" : String), PyVal.vstr k)], p.1 ≠ f := by
    intro f hf p hp
    simp only [List.mem_filter, bne_iff_ne, ne_eq] at hf
    simp only [List.mem_singleton] at hp
    subst hp
    exact fun hh => hf.2 hh.symm
  have hmain : searchProject k fa fields
      = ("key", PyVal.vstr k) :: (fields.filter (fun f => f != "key")).map
          (fun f => (f, projectField fa f)) := by
    unfold searchProject
    rw [foldl_dictInsert_fresh _ _ _ hnd' hfresh]
    rfl
  refine ⟨by rw [hmain]; rfl, ?_, ?_⟩
  · rw [hmain]
    simp only [List.map_cons, List.map_map]
    congr 1
    induction fields.filter (fun f => f != "key") with
    | nil => rfl
    | cons a l ih => simp [ih]
  · intro f hf hfk hfa
    have hmem : f ∈ fields.filter (fun f => f != "key") := by
      simp [List.mem_filter, hf, hfk]
    rw [hmain, lookup_cons_pv, if_neg hfk, lookup_map_pair_self _ _ _ hmem]
    simp [projectField, hfa]

/-- Witness for C6: projecting fields `["summary", "bogus"]` of an
attribute-less record keyed "K-1". -/
theorem projector_unknown_null_key_first_witness :
    (searchProject "K-1" [] ["summary", "bogus"]).head?
        = some ("key", PyVal.vstr "K-1") ∧
    (searchProject "K-1" [] ["summary", "bogus"]).map Prod.fst
        = ["key", "summary", "bogus"] ∧
    List.lookup "bogus" (searchProject "K-1" [] ["summary", "bogus"])
        = some PyVal.vnull := by
  have h := projector_unknown_null_key_first "K-1" [] ["summary", "bogus"] (by decide)
  exact ⟨h.1, by rw [h.2.1]; rfl, h.2.2 "bogus" (by decide) (by decide) rfl⟩

/-- C7: when a link to the source is requested and the link-creation
call fails after the new record exists, the clone still returns the
successful result for the new record, `link_added` is reported true (the
step was attempted), and the returned value does not depend on the link
call's outcome — a link failure never produces an overall error. -/
theorem link_failure_nonfatal (args : CloneIssueArgs) (newI src : SourceIssue)
    (e : String) (attachOutcome : Except String Unit)
    (hl : args.add_link_to_source = true) :
    clonePostCreate args newI src (Except.error e) attachOutcome
        = Except.ok (cloneResultDict args newI src) ∧
    List.lookup "link_added" (cloneResultDict args newI src)
        = some (PyVal.vbool true) ∧
    (∀ o : Except String Unit,
      clonePostCreate args newI src o attachOutcome
          = clonePostCreate args newI src (Except.error e) attachOutcome) := by
  refine ⟨rfl, ?_, fun o => rfl⟩
  simp [cloneResultDict, lookup_cons_pv, hl]

/-- Witness for C7: a concrete clone request (link requested by default)
whose link call fails with "boom". -/
theorem link_failure_nonfatal_witness :
    clonePostCreate cloneArgsNoOverride emptySourceExample cloneSourceExample
        (Except.error "boom") (Except.ok ())
      = Except.ok (cloneResultDict cloneArgsNoOverride emptySourceExample cloneSourceExample) ∧
    List.lookup "link_added"
        (cloneResultDict cloneArgsNoOverride emptySourceExample cloneSourceExample)
      = some (PyVal.vbool true) := by
  have h := link_failure_nonfatal cloneArgsNoOverride emptySourceExample cloneSourceExample
    "boom" (Except.ok ()) rfl
  exact ⟨h.1, h.2.1⟩

/-- C3: every field identifier on the clone source starting with
`customfield_` whose value is not null is carried into the created
record's field set, normalized by probing in order: an `id` attribute
gives `{id: ...}`, else a `value` attribute gives `{value: ...}`, else a
`name` attribute gives `{name: ...}`, else the raw value; in particular
`id` wins when both `id` and `name` are present. -/
theorem custom_fields_carried (args : CloneIssueArgs) (src : SourceIssue)
    (d : List (String × PyVal)) (f : String) (v : PyVal)
    (hnd : (src.attrs.map Prod.fst).Nodup)
    (hok : buildCloneFields args src = Except.ok d)
    (hf : startswith f "customfield_" = true)
    (hl : List.lookup f src.attrs = some v)
    (hv : v.isNull = false)
    (hover : ∀ p ∈ args.custom_fields, p.1 ≠ f) :
    List.lookup f d = some (normalizeCustom v) ∧
    (∀ i, getattrOpt v "id" = some i → normalizeCustom v = PyVal.vobj [("id", i)]) ∧
    (getattrOpt v "id" = none → ∀ w, getattrOpt v "value" = some w →
      normalizeCustom v = PyVal.vobj [("value", w)]) ∧
    (getattrOpt v "id" = none → getattrOpt v "value" = none →
      ∀ n, getattrOpt v "name" = some n → normalizeCustom v = PyVal.vobj [("name", n)]) ∧
    (getattrOpt v "id" = none → getattrOpt v "value" = none →
      getattrOpt v "name" = none → normalizeCustom v = v) := by
  obtain ⟨pr, hpr, rfl⟩ := buildCloneFields_ok args src d hok
  refine ⟨?_, ?_, ?_, ?_, ?_⟩
  · unfold assembleCloneFields
    rw [dictUpdate_lookup_not_mem _ _ _ hover]
    exact dictUpdate_lookup_mem _ _ _ _ (sourceCustomFields_keys_nodup src.attrs hnd)
      (sourceCustomFields_lookup src.attrs f v hnd hl hf hv)
  · intro i hi
    simp [normalizeCustom, hi]
  · intro h0 w hw
    simp [normalizeCustom, h0, hw]
  · intro h0 h1 n hn
    simp [normalizeCustom, h0, h1, hn]
  · intro h0 h1 h2
    simp [normalizeCustom, h0, h1, h2]

/-- Witness for C3: a custom field whose value carries both `id` and
`name` is carried over in the `{id: ...}` form. -/
theorem custom_fields_carried_witness :
    List.lookup "customfield_10010" customFieldMergedExample
        = some (normalizeCustom
            (PyVal.vobj [("id", PyVal.vstr "7"), ("name", PyVal.vstr "Sprint 7")])) ∧
    normalizeCustom (PyVal.vobj [("id", PyVal.vstr "7"), ("name", PyVal.vstr "Sprint 7")])
        = PyVal.vobj [("id", PyVal.vstr "7")] := by
  have h := custom_fields_carried cloneArgsNoOverride customFieldSourceExample
    customFieldMergedExample "customfield_10010"
    (PyVal.vobj [("id", PyVal.vstr "7"), ("name", PyVal.vstr "Sprint 7")])
    (by simp [customFieldSourceExample]) rfl rfl rfl rfl
    (by simp [cloneArgsNoOverride])
  exact ⟨h.1, h.2.1 (PyVal.vstr "7") rfl⟩

/-- C4 counterexample: with no explicit description and a source whose
description is null, the created field set still carries a
`description` key (mapped to null) — the field is not omitted, contrary
to the claim's "otherwise the field is omitted entirely". -/
theorem description_never_omitted_counterexample :
    (match buildCloneFields cloneArgsNoOverride emptySourceExample with
     | Except.ok d => List.lookup "description" d
     | Except.error _ => none) = some PyVal.vnull :=
  rfl

/-- C4 amended: provided the caller's explicit custom-field overrides
(applied last over the whole field set) do not themselves use the keys
`description`, `priority`, `assignee` or `labels`: `priority`,
`assignee` and `labels` are resolved as the caller's explicitly
supplied non-null value when present (an explicit empty label list
counts as supplied); otherwise, when the source carries a truthy value
for the field, it is inherited — priority as `{name: source name}`,
labels as the raw source list, assignee by probing `accountId`, then
`key`, then `name` (and omitted when a truthy source assignee exposes
none of the three); otherwise — field absent or falsy on the source —
the field is omitted. `description` is never omitted: the caller's
value when supplied, else the source's current description, even when
that is null. -/
theorem optional_fields_override_or_inherit (args : CloneIssueArgs) (src : SourceIssue)
    (d : List (String × PyVal))
    (hok : buildCloneFields args src = Except.ok d)
    (hcf : ∀ p ∈ args.custom_fields,
      p.1 ≠ "description" ∧ p.1 ≠ "priority" ∧ p.1 ≠ "assignee" ∧ p.1 ≠ "labels") :
    ((∀ s, args.description = some s →
        List.lookup "description" d = some (PyVal.vstr s)) ∧
     (args.description = none →
        List.lookup "description" d = some src.description)) ∧
    ((∀ p, args.priority = some p →
        List.lookup "priority" d = some (PyVal.vobj [("name", PyVal.vstr p)])) ∧
     (args.priority = none → List.lookup "priority" src.attrs = none →
        List.lookup "priority" d = none) ∧
     (∀ v, args.priority = none → List.lookup "priority" src.attrs = some v →
        v.truthy = false → List.lookup "priority" d = none) ∧
     (∀ v n, args.priority = none → List.lookup "priority" src.attrs = some v →
        v.truthy = true → getattrOpt v "name" = some n →
        List.lookup "priority" d = some (PyVal.vobj [("name", n)]))) ∧
    ((∀ a, args.assignee = some a →
        List.lookup "assignee" d = some (PyVal.vobj [("name", PyVal.vstr a)])) ∧
     (args.assignee = none → List.lookup "assignee" src.attrs = none →
        List.lookup "assignee" d = none) ∧
     (∀ v, args.assignee = none → List.lookup "assignee" src.attrs = some v →
        v.truthy = false → List.lookup "assignee" d = none) ∧
     (∀ v x, args.assignee = none → List.lookup "assignee" src.attrs = some v →
        v.truthy = true → getattrOpt v "accountId" = some x →
        List.lookup "assignee" d = some (PyVal.vobj [("accountId", x)])) ∧
     (∀ v x, args.assignee = none → List.lookup "assignee" src.attrs = some v →
        v.truthy = true → getattrOpt v "accountId" = none →
        getattrOpt v "key" = some x →
        List.lookup "assignee" d = some (PyVal.vobj [("key", x)])) ∧
     (∀ v x, args.assignee = none → List.lookup "assignee" src.attrs = some v →
        v.truthy = true → getattrOpt v "accountId" = none →
        getattrOpt v "key" = none → getattrOpt v "name" = some x →
        List.lookup "assignee" d = some (PyVal.vobj [("name", x)])) ∧
     (∀ v, args.assignee = none → List.lookup "assignee" src.attrs = some v →
        v.truthy = true → getattrOpt v "accountId" = none →
        getattrOpt v "key" = none → getattrOpt v "name" = none →
        List.lookup "assignee" d = none)) ∧
    ((∀ l, args.labels = some l →
        List.lookup "labels" d = some (PyVal.vlist (l.map PyVal.vstr))) ∧
     (args.labels = none → List.lookup "labels" src.attrs = none →
        List.lookup "labels" d = none) ∧
     (∀ v, args.labels = none → List.lookup "labels" src.attrs = some v →
        v.truthy = false → List.lookup "labels" d = none) ∧
     (∀ v, args.labels = none → List.lookup "labels" src.attrs = some v →
        v.truthy = true → List.lookup "labels" d = some v)) := by
  obtain ⟨pr, hpr, rfl⟩ := buildCloneFields_ok args src d hok
  have hstdD := assemble_lookup_std args src pr "description" rfl
    (fun p hp => (hcf p hp).1)
  have hstdP := assemble_lookup_std args src pr "priority" rfl
    (fun p hp => (hcf p hp).2.1)
  have hstdA := assemble_lookup_std args src pr "assignee" rfl
    (fun p hp => (hcf p hp).2.2.1)
  have hstdL := assemble_lookup_std args src pr "labels" rfl
    (fun p hp => (hcf p hp).2.2.2)
  refine ⟨⟨?_, ?_⟩, ⟨?_, ?_, ?_, ?_⟩, ⟨?_, ?_, ?_, ?_, ?_, ?_, ?_⟩, ⟨?_, ?_, ?_, ?_⟩⟩
  · intro s hs
    rw [hstdD, cloneMainDict_lookup_description]
    simp [resolveDescription, hs]
  · intro hs
    rw [hstdD, cloneMainDict_lookup_description]
    simp [resolveDescription, hs]
  · intro p hp
    simp only [resolvePriority, hp] at hpr
    injection hpr with hpr
    rw [hstdP, cloneMainDict_lookup_priority, ← hpr]
  · intro hp hsrc
    simp only [resolvePriority, hp, hsrc] at hpr
    injection hpr with hpr
    rw [hstdP, cloneMainDict_lookup_priority, ← hpr]
  · intro v hp hsrc htr
    simp only [resolvePriority, hp, hsrc, htr] at hpr
    injection hpr with hpr
    rw [hstdP, cloneMainDict_lookup_priority, ← hpr]
  · intro v n hp hsrc htr hn
    simp only [resolvePriority, hp, hsrc, htr, hn, if_pos] at hpr
    injection hpr with hpr
    rw [hstdP, cloneMainDict_lookup_priority, ← hpr]
  · intro a ha
    rw [hstdA, cloneMainDict_lookup_assignee]
    simp [resolveAssignee, ha]
  · intro ha hsrc
    rw [hstdA, cloneMainDict_lookup_assignee]
    simp [resolveAssignee, ha, hsrc]
  · intro v ha hsrc htr
    rw [hstdA, cloneMainDict_lookup_assignee]
    simp [resolveAssignee, ha, hsrc, htr]
  · intro v x ha hsrc htr hacc
    rw [hstdA, cloneMainDict_lookup_assignee]
    simp [resolveAssignee, ha, hsrc, htr, hacc]
  · intro v x ha hsrc htr hacc hkey
    rw [hstdA, cloneMainDict_lookup_assignee]
    simp [resolveAssignee, ha, hsrc, htr, hacc, hkey]
  · intro v x ha hsrc htr hacc hkey hname
    rw [hstdA, cloneMainDict_lookup_assignee]
    simp [resolveAssignee, ha, hsrc, htr, hacc, hkey, hname]
  · intro v ha hsrc htr hacc hkey hname
    rw [hstdA, cloneMainDict_lookup_assignee]
    simp [resolveAssignee, ha, hsrc, htr, hacc, hkey, hname]
  · intro l hlab
    rw [hstdL, cloneMainDict_lookup_labels]
    simp [resolveLabels, hlab]
  · intro hlab hsrc
    rw [hstdL, cloneMainDict_lookup_labels]
    simp [resolveLabels, hlab, hsrc]
  · intro v hlab hsrc htr
    rw [hstdL, cloneMainDict_lookup_labels]
    simp [resolveLabels, hlab, hsrc, htr]
  · intro v hlab hsrc htr
    rw [hstdL, cloneMainDict_lookup_labels]
    simp [resolveLabels, hlab, hsrc, htr]

/-- Witness for the amended C4: the override clone request supplies an
explicit empty label list (kept as `[]`) and no description (copied from
the source, which is null — present, not omitted). -/
theorem optional_fields_override_or_inherit_witness :
    List.lookup "labels" cloneMergedWithOverrideExample = some (PyVal.vlist []) ∧
    List.lookup "description" cloneMergedWithOverrideExample = some PyVal.vnull := by
  have h := optional_fields_override_or_inherit cloneArgsWithOverride cloneSourceExample
    cloneMergedWithOverrideExample rfl (by simp [cloneArgsWithOverride])
  exact ⟨h.2.2.2.1 [] rfl, h.1.2 rfl⟩

end JiraFacade
